import Mathlib

/-!
Verification of `ingest_from_apigw.py`: a script that acquires an OpenAPI
document (local file or AWS API Gateway export), upserts it into the Postman
Spec Hub by name, and triggers collection generation.  The script is embedded
shallowly: JSON values as an inductive type, the network as an oracle from
requests to transport outcomes, and `main` as a pure function returning the
process outcome together with the ordered trace of externally observable
effects and the resulting file system.
-/

set_option linter.unusedVariables false
set_option linter.unnecessarySeqFocus false

namespace ApigwIngest

/-- Single-quote character, used when rendering Python `repr` of strings. -/
def sq : String := (Char.ofNat 39).toString

/-- JSON-like values: the universe of Python values that `json.loads`
produces and the script manipulates (dict / list / str / int / bool / None). -/
inductive Json where
  | null : Json
  | bool (b : Bool) : Json
  | num (n : Int) : Json
  | str (s : String) : Json
  | arr (elems : List Json) : Json
  | obj (fields : List (String × Json)) : Json
deriving Inhabited

/-- First-match lookup in an association list.  Python dict keys are unique,
so this models `d[k]` presence and value. -/
def lookupFirst : List (String × Json) → String → Option Json
  | [], _ => none
  | (k, v) :: rest, key => if k = key then some v else lookupFirst rest key

/-- Models `d.get(k)`: `some v` when `d` is a dict containing key `k`,
otherwise `none` (non-dict receivers are modelled as having no keys). -/
def dictGet (j : Json) (key : String) : Option Json :=
  match j with
  | .obj fields => lookupFirst fields key
  | _ => none

/-- Python truthiness of a JSON-like value, as tested by `if x:`. -/
def Json.pyTruthy : Json → Bool
  | .null => false
  | .bool b => b
  | .num n => n != 0
  | .str s => s != ""
  | .arr es => !es.isEmpty
  | .obj fs => !fs.isEmpty

mutual

/-- Models Python `repr` on the JSON subset (string escaping is not
modelled; the script only interpolates these into diagnostics). -/
def pyRepr : Json → String
  | .null => "None"
  | .bool b => if b then "True" else "False"
  | .num n => toString n
  | .str s => sq ++ s ++ sq
  | .arr es => "[" ++ pyReprList es ++ "]"
  | .obj fs => "\x7b" ++ pyReprObj fs ++ "\x7d"

/-- Comma-separated `repr` of list elements. -/
def pyReprList : List Json → String
  | [] => ""
  | [x] => pyRepr x
  | x :: y :: rest => pyRepr x ++ ", " ++ pyReprList (y :: rest)

/-- Comma-separated `repr` of dict entries. -/
def pyReprObj : List (String × Json) → String
  | [] => ""
  | [(k, v)] => sq ++ k ++ sq ++ ": " ++ pyRepr v
  | (k, v) :: e :: rest => sq ++ k ++ sq ++ ": " ++ pyRepr v ++ ", " ++ pyReprObj (e :: rest)

end

/-- Models Python `str` as used by f-string interpolation: identity on
strings, `repr`-style rendering otherwise. -/
def pyStr : Json → String
  | .str s => s
  | v => pyRepr v

/-- The exception values the script can raise or catch. -/
inductive PyError where
  | runtimeError (msg : String)
  | netError (msg : String)
  | fileNotFoundError (path : String)
  | calledProcessError
  | typeError (msg : String)
deriving Inhabited

/-- Models Python `str(e)` as interpolated into the aggregate diagnostics. -/
def pyErrStr : PyError → String
  | .runtimeError m => m
  | .netError m => m
  | .fileNotFoundError p => "[Errno 2] No such file or directory: " ++ sq ++ p ++ sq
  | .calledProcessError => "command returned non-zero exit status"
  | .typeError m => m

/-- Rendering of the `last_err` variable, which starts out as `None`. -/
def optErrStr : Option PyError → String
  | none => "None"
  | some e => pyErrStr e

/-- One HTTP request as issued by `http_json`.  The headers other than the
API key are fixed by the script and carry no information. -/
structure Request where
  method : String
  url : String
  apiKey : String
  body : Option Json

/-- Transport-level outcome of one HTTP request as seen by `http_json`:
a parsed JSON body on 2xx, an `HTTPError` carrying status and body text, or
a network-level exception (connection failure or the 60-second timeout)
raised by `urlopen`. -/
inductive HttpResult where
  | ok (resp : Json)
  | httpError (code : Nat) (raw : String)
  | netError (msg : String)

/-- The network, modelled as an oracle from requests to transport outcomes. -/
def Net : Type := Request → HttpResult

/-- Models `http_json`: a 2xx response yields the parsed JSON body; an
`HTTPError` is re-raised as `RuntimeError(f"HTTP {code} calling {url}: {raw}")`;
any other exception from `urlopen` (timeout, connection error) propagates
unchanged. -/
def http_json (net : Net) (method url apiKey : String) (body : Option Json) :
    Except PyError Json :=
  match net ⟨method, url, apiKey, body⟩ with
  | .ok resp => .ok resp
  | .httpError code raw =>
      .error (.runtimeError ("HTTP " ++ toString code ++ " calling " ++ url ++ ": " ++ raw))
  | .netError m => .error (.netError m)

/-- Base URL of the remote service. -/
def POSTMAN_API_BASE : String := "https://api.getpostman.com"

/-- URL used both to list and to create specs in a workspace. -/
def specsUrl (workspaceId : String) : String :=
  POSTMAN_API_BASE ++ "/specs?workspaceId=" ++ workspaceId

/-- Models `list_specs`: the value of `resp.get("specs", [])`. -/
def listSpecsVal (resp : Json) : Json :=
  (dictGet resp "specs").getD (.arr [])

/-- Second branch of `_extract_spec_id`: a top-level `id` field that is a
string; otherwise `RuntimeError(f"Unexpected spec response: {resp}")`. -/
def extractTopLevelId (resp : Json) : Except PyError Json :=
  match dictGet resp "id" with
  | some (.str s) => .ok (.str s)
  | _ => .error (.runtimeError ("Unexpected spec response: " ++ pyStr resp))

/-- Models `_extract_spec_id`: an id nested under a `spec` dict wins (any
value type), else a top-level string `id`, else a `RuntimeError`. -/
def extractSpecId (resp : Json) : Except PyError Json :=
  match dictGet resp "spec" with
  | some (.obj fields) =>
      match lookupFirst fields "id" with
      | some v => .ok v
      | none => extractTopLevelId resp
  | _ => extractTopLevelId resp

/-- The ordered candidate request bodies for create/update: variant A
(flat), variant B (specName/specType/filePath/content), variant C (wrapped
under `spec`). -/
def payloadVariants (name specYaml : String) : List Json :=
  [ .obj [("name", .str name), ("type", .str "openapi3"),
          ("language", .str "yaml"), ("schema", .str specYaml)],
    .obj [("specName", .str name), ("specType", .str "openapi3"),
          ("filePath", .str (name ++ ".yaml")), ("content", .str specYaml)],
    .obj [("spec", .obj [("name", .str name), ("type", .str "openapi3"),
          ("language", .str "yaml"), ("schema", .str specYaml)])] ]

/-- One create attempt with one candidate body: POST it, then extract the
spec id from the response.  Both the HTTP-level exception and the extraction
`RuntimeError` surface as the thrown exception, exactly what the loop's
`except Exception` catches. -/
def attemptCreate (net : Net) (apiKey url : String) (body : Json) :
    Except PyError Json :=
  match http_json net "POST" url apiKey (some body) with
  | .ok resp => extractSpecId resp
  | .error e => .error e

/-- One update attempt with one candidate body: PUT it; the response body is
ignored, success of the request alone suffices. -/
def attemptUpdate (net : Net) (apiKey url : String) (body : Json) :
    Except PyError Unit :=
  match http_json net "PUT" url apiKey (some body) with
  | .ok _ => .ok ()
  | .error e => .error e

/-- The `for body in payload_variants: try ... except Exception: continue`
loop shared by `create_spec` and `update_spec`: the first successful attempt
returns immediately, a failed attempt is stored in `last_err` and the next
body is tried, and exhaustion raises `agg last_err`.  The second component
is the ordered list of HTTP requests issued. -/
def variantLoop {α : Type} (attempt : Json → Except PyError α)
    (mkReq : Json → Request) (agg : Option PyError → PyError) :
    List Json → Option PyError → Except PyError α × List Request
  | [], lastErr => (.error (agg lastErr), [])
  | b :: rest, lastErr =>
    match attempt b with
    | .ok v => (.ok v, [mkReq b])
    | .error e =>
      let r := variantLoop attempt mkReq agg rest (some e)
      (r.1, mkReq b :: r.2)

/-- Models `create_spec`: try each payload variant against
`POST /specs?workspaceId=...`; the first extractable id wins; exhaustion
raises the aggregate `RuntimeError` naming the number of payloads tried and
the last error. -/
def createSpec (net : Net) (apiKey workspaceId name specYaml : String) :
    Except PyError Json × List Request :=
  variantLoop (attemptCreate net apiKey (specsUrl workspaceId))
    (fun b => ⟨"POST", specsUrl workspaceId, apiKey, some b⟩)
    (fun lastErr => .runtimeError ("Failed to create spec (tried "
        ++ toString (payloadVariants name specYaml).length ++ " payloads): "
        ++ optErrStr lastErr))
    (payloadVariants name specYaml) none

/-- Models `update_spec`: the same loop against `PUT /specs/{spec_id}`; a
non-raising request alone is success; exhaustion raises the aggregate
`RuntimeError` naming the spec id and the last error. -/
def updateSpec (net : Net) (apiKey specId name specYaml : String) :
    Except PyError Unit × List Request :=
  variantLoop (attemptUpdate net apiKey (POSTMAN_API_BASE ++ "/specs/" ++ specId))
    (fun b => ⟨"PUT", POSTMAN_API_BASE ++ "/specs/" ++ specId, apiKey, some b⟩)
    (fun lastErr => .runtimeError ("Failed to update spec " ++ specId ++ ": "
        ++ optErrStr lastErr))
    (payloadVariants name specYaml) none

/-- Parsed command-line arguments, with the argparse defaults applied. -/
structure Args where
  workspaceId : String
  localSpec : Option String := none
  region : Option String := none
  restApiId : Option String := none
  stageName : Option String := none
  specName : String := "TechCorp Payments API (Spec Hub)"
  out : String := "openapi.yaml"

/-- Python truthiness of an optional string argument (`if not val` is the
negation of this). -/
def optTruthy : Option String → Bool
  | none => false
  | some s => s != ""

/-- The local file system, as a map from path to content. -/
def Fs : Type := String → Option String

/-- Writing a file: later reads of `path` see `content`. -/
def fsWrite (fs : Fs) (path content : String) : Fs :=
  fun p => if p = path then some content else fs p

/-- Python universal-newline translation performed by reading a file in text
mode (`open(path, "r", encoding="utf-8")`): a CRLF pair and a lone CR both
become a single LF. -/
def univNewlines : List Char → List Char
  | [] => []
  | '\r' :: '\n' :: rest => '\n' :: univNewlines rest
  | '\r' :: rest => '\n' :: univNewlines rest
  | c :: rest => c :: univNewlines rest

/-- Models Python text-mode `read()`: the stored file content with universal
newlines applied.  Text-mode writing on this platform translates nothing, so
writes store the string as is. -/
def pyReadText (s : String) : String := ⟨univNewlines s.data⟩

/-- Externally observable side effects of a run, in order. -/
inductive Event where
  | httpRequest (req : Request)
  | fileWrite (path content : String)
  | awsExport (region restApiId stageName out : String)

/-- How the process ends: `main` returning a code, `parser.error` (argparse
exits the process with status 2), or an uncaught exception propagating out
of `main` (CPython exits with status 1). -/
inductive MainOutcome where
  | exit (code : Nat)
  | parserError (msg : String)
  | raised (e : PyError)

/-- The process exit status implied by an outcome. -/
def MainOutcome.exitCode : MainOutcome → Nat
  | .exit c => c
  | .parserError _ => 2
  | .raised _ => 1

/-- Result of one run: outcome, effect trace, resulting file system. -/
structure RunResult where
  outcome : MainOutcome
  events : List Event
  fs : Fs

/-- Models `s.get("name") == args.spec_name`: true only when the `name` key
maps to exactly that string. -/
def nameMatches (s : Json) (specName : String) : Bool :=
  match dictGet s "name" with
  | some (.str m) => m == specName
  | _ => false

/-- The upsert decision of `main` (lines 206-208):
`existing = [s for s in specs if s.get("name") == spec_name]` followed by
`if existing and existing[0].get("id")`.  Yields the id of the first name
match when that id is truthy, otherwise `none` (the create path). -/
def firstMatchId (specs : List Json) (specName : String) : Option Json :=
  match specs.filter (fun s => nameMatches s specName) with
  | [] => none
  | s :: _ =>
    match dictGet s "id" with
    | some idv => if idv.pyTruthy then some idv else none
    | none => none

/-- Step 3 of `main`: `generate_collection_from_spec(spec_id, api_key)`.
A raising call propagates out of `main` uncaught. -/
def genStep (net : Net) (apiKey : String) (specId : Json)
    (evs : List Event) (fs : Fs) : RunResult :=
  let url := POSTMAN_API_BASE ++ "/specs/" ++ pyStr specId ++ "/generations/collection"
  match http_json net "POST" url apiKey (some (.obj [])) with
  | .ok _ => ⟨.exit 0, evs ++ [.httpRequest ⟨"POST", url, apiKey, some (.obj [])⟩], fs⟩
  | .error e => ⟨.raised e, evs ++ [.httpRequest ⟨"POST", url, apiKey, some (.obj [])⟩], fs⟩

/-- Step 2 of `main`: list the workspace specs, filter by exact name, update
the first match when it carries a truthy id, otherwise create; then proceed
to generation with the resulting spec id. -/
def upsertStep (net : Net) (apiKey : String) (args : Args) (specYaml : String)
    (evs : List Event) (fs : Fs) : RunResult :=
  let lurl := specsUrl args.workspaceId
  match http_json net "GET" lurl apiKey none with
  | .error e => ⟨.raised e, evs ++ [.httpRequest ⟨"GET", lurl, apiKey, none⟩], fs⟩
  | .ok resp =>
    let evs1 := evs ++ [.httpRequest ⟨"GET", lurl, apiKey, none⟩]
    match listSpecsVal resp with
    | .arr specs =>
      match firstMatchId specs args.specName with
      | some idv =>
        let ur := updateSpec net apiKey (pyStr idv) args.specName specYaml
        let evs2 := evs1 ++ ur.2.map Event.httpRequest
        match ur.1 with
        | .error e => ⟨.raised e, evs2, fs⟩
        | .ok _ => genStep net apiKey idv evs2 fs
      | none =>
        let cr := createSpec net apiKey args.workspaceId args.specName specYaml
        let evs2 := evs1 ++ cr.2.map Event.httpRequest
        match cr.1 with
        | .error e => ⟨.raised e, evs2, fs⟩
        | .ok idj => genStep net apiKey idj evs2 fs
    | _ => ⟨.raised (.typeError "argument of type is not iterable"), evs1, fs⟩

/-- Missing-argument names for AWS export mode, in source order. -/
def missingExportArgs (args : Args) : List String :=
  (if !optTruthy args.region then ["--region"] else [])
    ++ (if !optTruthy args.restApiId then ["--rest-api-id"] else [])
    ++ (if !optTruthy args.stageName then ["--stage-name"] else [])

/-- Models `main`: credential check (exit 2 when the key is missing or
empty), spec acquisition (local file when `--local-spec` is truthy, AWS
export otherwise — both persist the document to `args.out`), then upsert and
generation.  File reads are text-mode reads: `pyReadText` applies the
universal-newline translation of `open(..., "r", encoding="utf-8")`.
`aws` models the export subprocess: `some content` means it exits 0 after
writing `content` to `args.out` (read back in text mode afterwards); `none`
means it exits non-zero, so `subprocess.run(..., check=True)` raises. -/
def mainRun (args : Args) (env : String → Option String) (fs0 : Fs)
    (aws : Option String) (net : Net) : RunResult :=
  if !optTruthy (env "POSTMAN_API_KEY") then ⟨.exit 2, [], fs0⟩
  else
    let apiKey := (env "POSTMAN_API_KEY").getD ""
    if optTruthy args.localSpec then
      let path := args.localSpec.getD ""
      match fs0 path with
      | none => ⟨.raised (.fileNotFoundError path), [], fs0⟩
      | some raw =>
        let specYaml := pyReadText raw
        if path = args.out then upsertStep net apiKey args specYaml [] fs0
        else
          upsertStep net apiKey args specYaml [.fileWrite args.out specYaml]
            (fsWrite fs0 args.out specYaml)
    else
      let missing := missingExportArgs args
      if missing.isEmpty then
        let ev : Event := .awsExport (args.region.getD "") (args.restApiId.getD "")
          (args.stageName.getD "") args.out
        match aws with
        | none => ⟨.raised .calledProcessError, [ev], fs0⟩
        | some content =>
          upsertStep net apiKey args (pyReadText content) [ev]
            (fsWrite fs0 args.out content)
      else
        ⟨.parserError ("Missing required arguments for AWS export mode: "
            ++ String.intercalate ", " missing ++ " (or provide --local-spec)"), [], fs0⟩

/-- The HTTP requests among a run's events, in order. -/
def httpTrace (evs : List Event) : List Request :=
  evs.filterMap (fun e => match e with | .httpRequest r => some r | _ => none)

/-- Whether an attempt raised. -/
def isErr {ε α : Type} : Except ε α → Bool
  | .error _ => true
  | .ok _ => false

/-- The error carried by a failed attempt (dummy value on success; only
used beneath an `isErr` hypothesis). -/
def errOf {α : Type} : Except PyError α → PyError
  | .error e => e
  | .ok _ => .runtimeError ""

/-- Number of requests the variant loop issues on a given list: the leading
failed attempts plus the first success, or the whole list when every attempt
fails. -/
def attemptsUsed {α : Type} (attempt : Json → Except PyError α) :
    List Json → Nat
  | [] => 0
  | b :: rest =>
    match attempt b with
    | .ok _ => 1
    | .error _ => attemptsUsed attempt rest + 1

/-- Response-envelope predicate: an id nested under a `spec` dict. -/
def hasNestedId (resp : Json) : Bool :=
  match dictGet resp "spec" with
  | some (.obj fields) => (lookupFirst fields "id").isSome
  | _ => false

/-- Response-envelope predicate: a top-level string `id`. -/
def hasTopId (resp : Json) : Bool :=
  match dictGet resp "id" with
  | some (.str _) => true
  | _ => false

/-- The spec-listing request of a run. -/
def listReq (workspaceId apiKey : String) : Request :=
  ⟨"GET", specsUrl workspaceId, apiKey, none⟩

/-- A create request carrying one candidate body. -/
def createReq (workspaceId apiKey : String) (body : Json) : Request :=
  ⟨"POST", specsUrl workspaceId, apiKey, some body⟩

/-- An update request carrying one candidate body. -/
def updateReq (specId apiKey : String) (body : Json) : Request :=
  ⟨"PUT", POSTMAN_API_BASE ++ "/specs/" ++ specId, apiKey, some body⟩

/-- The generation-trigger request for a spec id. -/
def genReq (specId : Json) (apiKey : String) : Request :=
  ⟨"POST", POSTMAN_API_BASE ++ "/specs/" ++ pyStr specId ++ "/generations/collection",
    apiKey, some (.obj [])⟩

/-- The first candidate body (variant A). -/
def firstVariant (name specYaml : String) : Json :=
  (payloadVariants name specYaml).getD 0 .null

/-! Concrete fixtures used by the witness and counterexample theorems. -/

/-- Environment holding the API key. -/
def cEnv : String → Option String := fun s =>
  if s = "POSTMAN_API_KEY" then some "PMAK-test" else none

/-- Environment with no API key. -/
def cEnvNoKey : String → Option String := fun _ => none

/-- A file system holding one local spec file. -/
def cFs : Fs := fun p => if p = "openapi.yaml" then some "openapi: 3.0.0" else none

/-- Local-mode arguments whose local path coincides with the output path. -/
def cArgs : Args :=
  { workspaceId := "w1", localSpec := some "openapi.yaml", specName := "Pay API" }

/-- Export-mode arguments with region, rest-api-id and stage all absent. -/
def cArgsExport : Args := { workspaceId := "w1" }

/-- Network where the listing returns one ref named `Pay API` without any
`id` field, and every other call succeeds. -/
def netC1 : Net := fun r =>
  if r.method = "GET" then
    .ok (.obj [("specs", .arr [.obj [("name", .str "Pay API")]])])
  else if r.url = specsUrl "w1" then .ok (.obj [("id", .str "cid")])
  else .ok (.obj [])

/-- Network where the listing returns two refs named `Pay API` with ids `a`
and `b`, and every other call succeeds. -/
def netC1u : Net := fun r =>
  if r.method = "GET" then
    .ok (.obj [("specs", .arr
      [ .obj [("name", .str "Pay API"), ("id", .str "a")],
        .obj [("name", .str "Pay API"), ("id", .str "b")] ])])
  else .ok (.obj [])

/-- Network rejecting payload variant A with a 400 and accepting variant B,
for both create and update. -/
def netC2 : Net := fun r =>
  match r.body with
  | some (.obj (("name", _) :: _)) => .httpError 400 "bad shape"
  | some (.obj (("specName", _) :: _)) =>
    if r.method = "POST" then .ok (.obj [("id", .str "id-b")]) else .ok (.obj [])
  | _ => .ok (.obj [])

/-- Network failing every request with a 404. -/
def netFail : Net := fun _ => .httpError 404 "nope"

/-- Network timing out on payload variant A and accepting variant B. -/
def netC4 : Net := fun r =>
  match r.body with
  | some (.obj (("name", _) :: _)) => .netError "timed out"
  | some (.obj (("specName", _) :: _)) => .ok (.obj [("id", .str "id-b")])
  | _ => .ok (.obj [])

/-- Network with an empty workspace, a successful create, and a failing
generation trigger. -/
def netC6 : Net := fun r =>
  if r.method = "GET" then .ok (.obj [("specs", .arr [])])
  else if r.url = specsUrl "w1" then .ok (.obj [("spec", .obj [("id", .str "cid")])])
  else .httpError 500 "boom"

/-- Network with one listed ref named `Pay API` carrying id `a`, a
successful update, and a failing generation trigger. -/
def netC6u : Net := fun r =>
  if r.method = "GET" then
    .ok (.obj [("specs", .arr [.obj [("name", .str "Pay API"), ("id", .str "a")]])])
  else if r.method = "PUT" then .ok (.obj [])
  else .httpError 500 "boom"

/-- Local-mode arguments whose local path differs from the output path. -/
def cArgsCrlf : Args :=
  { workspaceId := "w1", localSpec := some "input.yaml", specName := "Pay API" }

/-- A file system holding a local spec file that contains a CRLF. -/
def cFsCrlf : Fs := fun p => if p = "input.yaml" then some "a\r\nb" else none

/-- Network answering every request with a body matching no known envelope. -/
def netC9 : Net := fun _ => .ok (.obj [("foo", .null)])

/-- Network whose listing response has no `specs` key, and which accepts the
first create variant. -/
def netC10 : Net := fun r =>
  if r.method = "GET" then .ok (.obj [("message", .str "hi")])
  else .ok (.obj [("id", .str "new-id")])

/-! General lemmas about the variant-negotiation loop. -/

theorem variantLoop_first_success {α : Type} (attempt : Json → Except PyError α)
    (mkReq : Json → Request) (agg : Option PyError → PyError) :
    ∀ (vs : List Json) (e0 : Option PyError) (k : Nat), 1 ≤ k → k ≤ vs.length →
      (∀ i, i < k - 1 → isErr (attempt (vs.getD i .null)) = true) →
      ∀ x, attempt (vs.getD (k - 1) .null) = .ok x →
      variantLoop attempt mkReq agg vs e0 = (.ok x, (vs.take k).map mkReq) := by
  intro vs
  induction vs with
  | nil =>
    intro e0 k h1 h2 _ x _
    simp at h2
    omega
  | cons b rest ih =>
    intro e0 k h1 h2 hfail x hsucc
    cases k with
    | zero => omega
    | succ n =>
      cases n with
      | zero =>
        simp [List.getD] at hsucc
        simp [variantLoop, hsucc, List.take]
      | succ m =>
        have hb := hfail 0 (by omega)
        simp only [List.getD_cons_zero] at hb
        rcases hE : attempt b with e | v
        · have ihr := ih (some e) (m + 1) (by omega) (by simp at h2; omega)
            (fun i hi => by
              have h := hfail (i + 1) (by omega)
              simpa [List.getD_cons_succ] using h)
            x (by simpa [List.getD_cons_succ] using hsucc)
          simp [variantLoop, hE, ihr, List.take_succ_cons]
        · rw [hE] at hb
          simp [isErr] at hb

theorem variantLoop_all_fail {α : Type} (attempt : Json → Except PyError α)
    (mkReq : Json → Request) (agg : Option PyError → PyError) :
    ∀ (vs : List Json) (e0 : Option PyError),
      (∀ b ∈ vs, isErr (attempt b) = true) →
      variantLoop attempt mkReq agg vs e0 =
        (.error (agg (vs.foldl (fun _ b => some (errOf (attempt b))) e0)), vs.map mkReq) := by
  intro vs
  induction vs with
  | nil => intro e0 _; simp [variantLoop]
  | cons b rest ih =>
    intro e0 hfail
    have hb := hfail b (by simp)
    rcases hE : attempt b with e | v
    · have ihr := ih (some e) (fun c hc => hfail c (List.mem_cons_of_mem _ hc))
      simp [variantLoop, hE, ihr, errOf]
    · rw [hE] at hb
      simp [isErr] at hb

theorem attemptsUsed_le_length {α : Type} (attempt : Json → Except PyError α) :
    ∀ vs : List Json, attemptsUsed attempt vs ≤ vs.length := by
  intro vs
  induction vs with
  | nil => simp [attemptsUsed]
  | cons b rest ih =>
    rcases hE : attempt b with e | v <;> simp [attemptsUsed, hE] <;> omega

theorem variantLoop_trace {α : Type} (attempt : Json → Except PyError α)
    (mkReq : Json → Request) (agg : Option PyError → PyError) :
    ∀ (vs : List Json) (e0 : Option PyError),
      (variantLoop attempt mkReq agg vs e0).2 =
        (vs.take (attemptsUsed attempt vs)).map mkReq := by
  intro vs
  induction vs with
  | nil => intro e0; simp [variantLoop, attemptsUsed]
  | cons b rest ih =>
    intro e0
    rcases hE : attempt b with e | v
    · simp [variantLoop, attemptsUsed, hE, ih (some e), List.take_succ_cons]
    · simp [variantLoop, attemptsUsed, hE, List.take_succ_cons]

theorem variantLoop_length {α : Type} (attempt : Json → Except PyError α)
    (mkReq : Json → Request) (agg : Option PyError → PyError)
    (vs : List Json) (e0 : Option PyError) :
    (variantLoop attempt mkReq agg vs e0).2.length = attemptsUsed attempt vs := by
  rw [variantLoop_trace]
  simp [List.length_take, Nat.min_eq_left (attemptsUsed_le_length attempt vs)]

theorem attemptsUsed_pos {α : Type} (attempt : Json → Except PyError α)
    (b : Json) (rest : List Json) :
    1 ≤ attemptsUsed attempt (b :: rest) := by
  rcases hE : attempt b with e | v <;> simp [attemptsUsed, hE]

theorem attemptsUsed_ge_iff {α : Type} (attempt : Json → Except PyError α) :
    ∀ (vs : List Json) (i : Nat), i + 1 < vs.length →
      (i + 2 ≤ attemptsUsed attempt vs ↔
        ∀ j, j ≤ i → isErr (attempt (vs.getD j .null)) = true) := by
  intro vs
  induction vs with
  | nil => intro i hi; simp at hi
  | cons b rest ih =>
    intro i hi
    rcases hE : attempt b with e | v
    · cases i with
      | zero =>
        simp only [attemptsUsed, hE]
        constructor
        · intro _ j hj
          have hj0 : j = 0 := by omega
          subst hj0
          simp [List.getD_cons_zero, hE, isErr]
        · intro _
          have hne : rest ≠ [] := by
            intro h
            rw [h] at hi
            simp at hi
          have hpos : 1 ≤ attemptsUsed attempt rest := by
            cases rest with
            | nil => exact absurd rfl hne
            | cons c cs => exact attemptsUsed_pos attempt c cs
          omega
      | succ m =>
        have ihr := ih m (by simp at hi; omega)
        simp only [attemptsUsed, hE]
        constructor
        · intro h j hj
          cases j with
          | zero => simp [List.getD_cons_zero, hE, isErr]
          | succ jm =>
            have hr := (ihr.mp (by omega)) jm (by omega)
            simpa [List.getD_cons_succ] using hr
        · intro h
          have hr : m + 2 ≤ attemptsUsed attempt rest := by
            apply ihr.mpr
            intro j hj
            have hs := h (j + 1) (by omega)
            simpa [List.getD_cons_succ] using hs
          omega
    · simp only [attemptsUsed, hE]
      constructor
      · intro h; omega
      · intro h
        have h0 := h 0 (by omega)
        rw [List.getD_cons_zero, hE] at h0
        simp [isErr] at h0

theorem attemptsUsed_le_of_ok {α : Type} (attempt : Json → Except PyError α) :
    ∀ (vs : List Json) (i : Nat) (x : α), i < vs.length →
      attempt (vs.getD i .null) = .ok x → attemptsUsed attempt vs ≤ i + 1 := by
  intro vs
  induction vs with
  | nil => intro i x hi; simp at hi
  | cons b rest ih =>
    intro i x hi hok
    rcases hE : attempt b with e | v
    · cases i with
      | zero =>
        rw [List.getD_cons_zero, hE] at hok
        simp at hok
      | succ m =>
        have hr := ih m x (by simp at hi; omega) (by simpa [List.getD_cons_succ] using hok)
        simp only [attemptsUsed, hE]
        omega
    · simp [attemptsUsed, hE]

theorem variantLoop_cons_head {α : Type} (attempt : Json → Except PyError α)
    (mkReq : Json → Request) (agg : Option PyError → PyError)
    (b : Json) (rest : List Json) (e0 : Option PyError) :
    ∃ t, (variantLoop attempt mkReq agg (b :: rest) e0).2 = mkReq b :: t := by
  rcases hE : attempt b with e | v
  · exact ⟨(variantLoop attempt mkReq agg rest (some e)).2, by simp [variantLoop, hE]⟩
  · exact ⟨[], by simp [variantLoop, hE]⟩

/-! Lemmas about event traces and the orchestrator steps. -/

@[simp] theorem httpTrace_nil : httpTrace [] = [] := rfl

@[simp] theorem httpTrace_append (a b : List Event) :
    httpTrace (a ++ b) = httpTrace a ++ httpTrace b := by
  simp [httpTrace]

@[simp] theorem httpTrace_cons_http (r : Request) (evs : List Event) :
    httpTrace (.httpRequest r :: evs) = r :: httpTrace evs := rfl

@[simp] theorem httpTrace_cons_fileWrite (p c : String) (evs : List Event) :
    httpTrace (.fileWrite p c :: evs) = httpTrace evs := rfl

@[simp] theorem httpTrace_cons_aws (a b c d : String) (evs : List Event) :
    httpTrace (.awsExport a b c d :: evs) = httpTrace evs := rfl

@[simp] theorem httpTrace_map_http (rs : List Request) :
    httpTrace (rs.map Event.httpRequest) = rs := by
  induction rs with
  | nil => rfl
  | cons r rest ih => simpa [httpTrace] using ih

theorem genStep_fs (net : Net) (apiKey : String) (specId : Json)
    (evs : List Event) (fs : Fs) :
    (genStep net apiKey specId evs fs).fs = fs := by
  simp only [genStep]
  split <;> rfl

theorem genStep_events (net : Net) (apiKey : String) (specId : Json)
    (evs : List Event) (fs : Fs) :
    (genStep net apiKey specId evs fs).events = evs ++ [.httpRequest (genReq specId apiKey)] := by
  simp only [genStep, genReq]
  split <;> rfl

theorem upsertStep_fs (net : Net) (apiKey : String) (args : Args) (specYaml : String)
    (evs : List Event) (fs : Fs) :
    (upsertStep net apiKey args specYaml evs fs).fs = fs := by
  simp only [upsertStep]
  repeat first
    | rfl
    | exact genStep_fs ..
    | split

theorem upsertStep_events (net : Net) (apiKey : String) (args : Args) (specYaml : String)
    (evs : List Event) (fs : Fs) :
    ∃ rs : List Request,
      (upsertStep net apiKey args specYaml evs fs).events = evs ++ rs.map Event.httpRequest := by
  simp only [upsertStep]
  rcases hh : http_json net "GET" (specsUrl args.workspaceId) apiKey none with e | resp
  · exact ⟨[⟨"GET", specsUrl args.workspaceId, apiKey, none⟩], by simp [hh]⟩
  · rcases hv : listSpecsVal resp with _ | b | n | s | specs | flds
    case arr =>
      rcases hm : firstMatchId specs args.specName with _ | idv
      · rcases hc : (createSpec net apiKey args.workspaceId args.specName specYaml).1 with e | idj
        · refine ⟨⟨"GET", specsUrl args.workspaceId, apiKey, none⟩ ::
            (createSpec net apiKey args.workspaceId args.specName specYaml).2, ?_⟩
          simp [hh, hv, hm, hc]
        · refine ⟨⟨"GET", specsUrl args.workspaceId, apiKey, none⟩ ::
            ((createSpec net apiKey args.workspaceId args.specName specYaml).2
              ++ [genReq idj apiKey]), ?_⟩
          simp [hh, hv, hm, hc, genStep_events]
      · rcases hu : (updateSpec net apiKey (pyStr idv) args.specName specYaml).1 with e | u
        · refine ⟨⟨"GET", specsUrl args.workspaceId, apiKey, none⟩ ::
            (updateSpec net apiKey (pyStr idv) args.specName specYaml).2, ?_⟩
          simp [hh, hv, hm, hu]
        · refine ⟨⟨"GET", specsUrl args.workspaceId, apiKey, none⟩ ::
            ((updateSpec net apiKey (pyStr idv) args.specName specYaml).2
              ++ [genReq idv apiKey]), ?_⟩
          simp [hh, hv, hm, hu, genStep_events]
    all_goals exact ⟨[⟨"GET", specsUrl args.workspaceId, apiKey, none⟩], by simp [hh, hv]⟩

theorem mainRun_local (args : Args) (env : String → Option String) (fs0 : Fs)
    (aws : Option String) (net : Net) (k p raw doc : String)
    (hk : env "POSTMAN_API_KEY" = some k) (hk2 : k ≠ "")
    (hp : args.localSpec = some p) (hp2 : p ≠ "")
    (hraw : fs0 p = some raw) (hdoc : pyReadText raw = doc) :
    mainRun args env fs0 aws net =
      if p = args.out then upsertStep net k args doc [] fs0
      else upsertStep net k args doc [.fileWrite args.out doc] (fsWrite fs0 args.out doc) := by
  subst hdoc
  simp [mainRun, hk, optTruthy, hk2, hp, hp2, hraw]

theorem upsertStep_create_eq (net : Net) (k : String) (args : Args) (doc : String)
    (evs : List Event) (fs : Fs) (resp : Json) (specs : List Json)
    (hl : net (listReq args.workspaceId k) = .ok resp)
    (hs : listSpecsVal resp = .arr specs)
    (hm : firstMatchId specs args.specName = none) :
    upsertStep net k args doc evs fs =
      (match (createSpec net k args.workspaceId args.specName doc).1 with
       | .error e => ⟨.raised e,
           evs ++ [.httpRequest (listReq args.workspaceId k)]
             ++ ((createSpec net k args.workspaceId args.specName doc).2.map Event.httpRequest), fs⟩
       | .ok idj => genStep net k idj
           (evs ++ [.httpRequest (listReq args.workspaceId k)]
             ++ ((createSpec net k args.workspaceId args.specName doc).2.map Event.httpRequest)) fs) := by
  have hl2 : http_json net "GET" (specsUrl args.workspaceId) k none = .ok resp := by
    simp [http_json, listReq] at hl ⊢
    rw [hl]
  simp only [upsertStep, hl2, hs, hm, listReq]

theorem upsertStep_update_eq (net : Net) (k : String) (args : Args) (doc : String)
    (evs : List Event) (fs : Fs) (resp : Json) (specs : List Json) (idv : Json)
    (hl : net (listReq args.workspaceId k) = .ok resp)
    (hs : listSpecsVal resp = .arr specs)
    (hm : firstMatchId specs args.specName = some idv) :
    upsertStep net k args doc evs fs =
      (match (updateSpec net k (pyStr idv) args.specName doc).1 with
       | .error e => ⟨.raised e,
           evs ++ [.httpRequest (listReq args.workspaceId k)]
             ++ ((updateSpec net k (pyStr idv) args.specName doc).2.map Event.httpRequest), fs⟩
       | .ok u => genStep net k idv
           (evs ++ [.httpRequest (listReq args.workspaceId k)]
             ++ ((updateSpec net k (pyStr idv) args.specName doc).2.map Event.httpRequest)) fs) := by
  have hl2 : http_json net "GET" (specsUrl args.workspaceId) k none = .ok resp := by
    simp [http_json, listReq] at hl ⊢
    rw [hl]
  simp only [upsertStep, hl2, hs, hm, listReq]

theorem createSpec_head (net : Net) (k ws name doc : String) :
    ∃ t, (createSpec net k ws name doc).2 =
      createReq ws k (firstVariant name doc) :: t := by
  simp only [createSpec, payloadVariants, createReq, firstVariant, List.getD_cons_zero]
  exact variantLoop_cons_head ..

theorem updateSpec_head (net : Net) (k specId name doc : String) :
    ∃ t, (updateSpec net k specId name doc).2 =
      updateReq specId k (firstVariant name doc) :: t := by
  simp only [updateSpec, payloadVariants, updateReq, firstVariant, List.getD_cons_zero]
  exact variantLoop_cons_head ..

theorem upsertStep_create_trace (net : Net) (k : String) (args : Args) (doc : String)
    (evs : List Event) (fs : Fs) (resp : Json) (specs : List Json)
    (hl : net (listReq args.workspaceId k) = .ok resp)
    (hs : listSpecsVal resp = .arr specs)
    (hm : firstMatchId specs args.specName = none) :
    ∃ t, httpTrace (upsertStep net k args doc evs fs).events =
      httpTrace evs ++ listReq args.workspaceId k
        :: createReq args.workspaceId k (firstVariant args.specName doc) :: t := by
  rw [upsertStep_create_eq net k args doc evs fs resp specs hl hs hm]
  obtain ⟨t0, ht0⟩ := createSpec_head net k args.workspaceId args.specName doc
  rcases hc : (createSpec net k args.workspaceId args.specName doc).1 with e | idj
  · exact ⟨t0, by simp [ht0]⟩
  · exact ⟨t0 ++ [genReq idj k], by simp [genStep_events, ht0]⟩

theorem upsertStep_update_trace (net : Net) (k : String) (args : Args) (doc : String)
    (evs : List Event) (fs : Fs) (resp : Json) (specs : List Json) (idv : Json)
    (hl : net (listReq args.workspaceId k) = .ok resp)
    (hs : listSpecsVal resp = .arr specs)
    (hm : firstMatchId specs args.specName = some idv) :
    ∃ t, httpTrace (upsertStep net k args doc evs fs).events =
      httpTrace evs ++ listReq args.workspaceId k
        :: updateReq (pyStr idv) k (firstVariant args.specName doc) :: t := by
  rw [upsertStep_update_eq net k args doc evs fs resp specs idv hl hs hm]
  obtain ⟨t0, ht0⟩ := updateSpec_head net k (pyStr idv) args.specName doc
  rcases hu : (updateSpec net k (pyStr idv) args.specName doc).1 with e | u
  · exact ⟨t0, by simp [ht0]⟩
  · exact ⟨t0 ++ [genReq idv k], by simp [genStep_events, ht0]⟩

theorem genStep_outcome (net : Net) (k : String) (specId : Json)
    (evs : List Event) (fs : Fs) :
    (∀ c raw, net (genReq specId k) = .httpError c raw →
      (genStep net k specId evs fs).outcome = .raised (.runtimeError ("HTTP "
        ++ toString c ++ " calling "
        ++ (POSTMAN_API_BASE ++ "/specs/" ++ pyStr specId ++ "/generations/collection")
        ++ ": " ++ raw))) ∧
    (∀ m, net (genReq specId k) = .netError m →
      (genStep net k specId evs fs).outcome = .raised (.netError m)) ∧
    (∀ r2, net (genReq specId k) = .ok r2 →
      (genStep net k specId evs fs).outcome = .exit 0) := by
  refine ⟨?_, ?_, ?_⟩
  · intro c raw h
    have h2 : net ⟨"POST", POSTMAN_API_BASE ++ "/specs/" ++ pyStr specId
        ++ "/generations/collection", k, some (.obj [])⟩ = .httpError c raw := by
      simpa [genReq] using h
    simp [genStep, http_json, h2]
  · intro m h
    have h2 : net ⟨"POST", POSTMAN_API_BASE ++ "/specs/" ++ pyStr specId
        ++ "/generations/collection", k, some (.obj [])⟩ = .netError m := by
      simpa [genReq] using h
    simp [genStep, http_json, h2]
  · intro r2 h
    have h2 : net ⟨"POST", POSTMAN_API_BASE ++ "/specs/" ++ pyStr specId
        ++ "/generations/collection", k, some (.obj [])⟩ = .ok r2 := by
      simpa [genReq] using h
    simp [genStep, http_json, h2]

theorem genStep_run_report (net : Net) (k : String) (idj : Json)
    (evs2 : List Event) (fsx : Fs) :
    (Event.httpRequest (genReq idj k) ∈ (genStep net k idj evs2 fsx).events) ∧
    (∀ e ∈ evs2, e ∈ (genStep net k idj evs2 fsx).events) ∧
    (∀ c raw2, net (genReq idj k) = .httpError c raw2 →
      (genStep net k idj evs2 fsx).outcome =
        .raised (.runtimeError ("HTTP " ++ toString c ++ " calling "
          ++ (POSTMAN_API_BASE ++ "/specs/" ++ pyStr idj ++ "/generations/collection")
          ++ ": " ++ raw2)) ∧
      (genStep net k idj evs2 fsx).outcome.exitCode = 1) ∧
    (∀ m, net (genReq idj k) = .netError m →
      (genStep net k idj evs2 fsx).outcome = .raised (.netError m) ∧
      (genStep net k idj evs2 fsx).outcome.exitCode = 1) ∧
    (∀ r2, net (genReq idj k) = .ok r2 →
      (genStep net k idj evs2 fsx).outcome = .exit 0) := by
  obtain ⟨h1, h2, h3⟩ := genStep_outcome net k idj evs2 fsx
  refine ⟨?_, ?_, ?_, ?_, h3⟩
  · rw [genStep_events]
    simp
  · intro e he
    rw [genStep_events]
    simp [he]
  · intro c raw2 h
    exact ⟨h1 c raw2 h, by rw [h1 c raw2 h]; rfl⟩
  · intro m h
    exact ⟨h2 m h, by rw [h2 m h]; rfl⟩

theorem univNewlines_no_cr : ∀ l : List Char, (∀ c ∈ l, c ≠ '\r') →
    univNewlines l = l := by
  intro l
  induction l with
  | nil => intro _; rfl
  | cons c rest ih =>
    intro h
    have hc : c ≠ '\r' := h c (by simp)
    have hrest := ih (fun d hd => h d (List.mem_cons_of_mem c hd))
    cases rest with
    | nil =>
      cases hcc : c == '\r' with
      | true => exact absurd (by simpa using hcc) hc
      | false => simp [univNewlines]
    | cons c2 rest2 => simp [univNewlines, hc, hrest]

theorem pyReadText_no_cr (s : String) (h : ∀ c ∈ s.data, c ≠ '\r') :
    pyReadText s = s := by
  unfold pyReadText
  rw [univNewlines_no_cr s.data h]

theorem extractTopLevelId_ok_iff (resp : Json) :
    (∃ v, extractTopLevelId resp = .ok v) ↔ hasTopId resp = true := by
  unfold extractTopLevelId hasTopId
  rcases h2 : dictGet resp "id" with _ | w
  · simp
  · cases w <;> simp

theorem extractTopLevelId_error (resp : Json) (ht : hasTopId resp = false) :
    extractTopLevelId resp =
      .error (.runtimeError ("Unexpected spec response: " ++ pyStr resp)) := by
  unfold hasTopId at ht
  unfold extractTopLevelId
  rcases h2 : dictGet resp "id" with _ | w
  · rfl
  · rw [h2] at ht
    cases w <;> simp_all

theorem extract_error_of_no_envelope (resp : Json)
    (hn : hasNestedId resp = false) (ht : hasTopId resp = false) :
    extractSpecId resp =
      .error (.runtimeError ("Unexpected spec response: " ++ pyStr resp)) := by
  unfold extractSpecId
  rcases h : dictGet resp "spec" with _ | v
  · exact extractTopLevelId_error resp ht
  · cases v with
    | obj fields =>
      dsimp only
      rcases hid : lookupFirst fields "id" with _ | w
      · exact extractTopLevelId_error resp ht
      · unfold hasNestedId at hn
        rw [h] at hn
        dsimp only at hn
        rw [hid] at hn
        simp at hn
    | null => exact extractTopLevelId_error resp ht
    | bool b => exact extractTopLevelId_error resp ht
    | num n => exact extractTopLevelId_error resp ht
    | str s => exact extractTopLevelId_error resp ht
    | arr es => exact extractTopLevelId_error resp ht

theorem createSpec_agg_msg (name yaml : String) (e : PyError) :
    "Failed to create spec (tried " ++ toString (payloadVariants name yaml).length
        ++ " payloads): " ++ pyErrStr e
      = "Failed to create spec (tried 3 payloads): " ++ pyErrStr e := by
  simp only [payloadVariants, List.length_cons, List.length_nil]
  rfl

/-! Claim theorems. -/

/-- C7: if the credential environment variable `POSTMAN_API_KEY` is absent,
`main` returns exit code 2 and the run performs no network calls (indeed no
external effects at all). -/
theorem c7_missing_key_exits_2 (args : Args) (env : String → Option String)
    (fs0 : Fs) (aws : Option String) (net : Net)
    (h : env "POSTMAN_API_KEY" = none) :
    (mainRun args env fs0 aws net).outcome = .exit 2 ∧
    (mainRun args env fs0 aws net).events = [] := by
  simp [mainRun, h, optTruthy]

theorem c7_missing_key_exits_2_witness :
    (mainRun cArgs cEnvNoKey cFs none netC1).outcome = .exit 2 ∧
    (mainRun cArgs cEnvNoKey cFs none netC1).events = [] :=
  c7_missing_key_exits_2 cArgs cEnvNoKey cFs none netC1 rfl

/-- C8: in export mode (no truthy `--local-spec`), if any of region, REST API
id or stage name is missing or empty, the run ends with a configuration
error carrying exit status 2 (either `parser.error` or the missing-key exit)
and performs no AWS export and no HTTP call: the event trace is empty. -/
theorem c8_export_mode_missing_args (args : Args) (env : String → Option String)
    (fs0 : Fs) (aws : Option String) (net : Net)
    (hmode : optTruthy args.localSpec = false)
    (hmiss : optTruthy args.region = false ∨ optTruthy args.restApiId = false ∨
      optTruthy args.stageName = false) :
    (mainRun args env fs0 aws net).outcome.exitCode = 2 ∧
    (mainRun args env fs0 aws net).events = [] ∧
    ((∃ m, (mainRun args env fs0 aws net).outcome = .parserError m) ∨
      (mainRun args env fs0 aws net).outcome = .exit 2) := by
  have hne : (missingExportArgs args).isEmpty = false := by
    rcases hmiss with h | h | h
    · simp [missingExportArgs, h]
    · cases hreg : optTruthy args.region <;> simp [missingExportArgs, h, hreg]
    · cases hreg : optTruthy args.region <;>
        cases hrest : optTruthy args.restApiId <;>
          simp [missingExportArgs, h, hreg, hrest]
  by_cases hkey : optTruthy (env "POSTMAN_API_KEY")
  · simp [mainRun, hkey, hmode, hne, MainOutcome.exitCode]
  · simp at hkey
    simp [mainRun, hkey, MainOutcome.exitCode]

theorem c8_export_mode_missing_args_witness :
    (mainRun cArgsExport cEnv cFs none netC1).outcome.exitCode = 2 ∧
    (mainRun cArgsExport cEnv cFs none netC1).events = [] ∧
    ((∃ m, (mainRun cArgsExport cEnv cFs none netC1).outcome = .parserError m) ∨
      (mainRun cArgsExport cEnv cFs none netC1).outcome = .exit 2) :=
  c8_export_mode_missing_args cArgsExport cEnv cFs none netC1 rfl (Or.inl rfl)

/-- C5 counterexample: the claim asserts a byte-for-byte round trip for
every valid local-mode input.  The script reads the local file in text mode
(line 170, universal newlines), so an input containing a CRLF is read with
the CR dropped and the copy written to the output path differs from the
input file's content. -/
theorem c5_crlf_copy_not_byte_identical :
    cFsCrlf "input.yaml" = some "a\r\nb" ∧
    (mainRun cArgsCrlf cEnv cFsCrlf none netC1).fs cArgsCrlf.out = some "a\nb" ∧
    (mainRun cArgsCrlf cEnv cFsCrlf none netC1).fs cArgsCrlf.out ≠
      cFsCrlf "input.yaml" :=
  ⟨rfl, rfl, by decide⟩

/-- C5 (amended): in local mode the content written to the output path
equals the input file's content after Python universal-newline translation
(CRLF and lone CR become LF) — byte-for-byte identical exactly when the
input contains no carriage return; when the local path and the output path
coincide, the copy is a no-op: nothing is written and the file system is
unchanged. -/
theorem c5_local_roundtrip_amended (args : Args) (env : String → Option String)
    (fs0 : Fs) (aws : Option String) (net : Net) (k p raw : String)
    (hk : env "POSTMAN_API_KEY" = some k) (hk2 : k ≠ "")
    (hp : args.localSpec = some p) (hp2 : p ≠ "") (hraw : fs0 p = some raw) :
    (p ≠ args.out →
      (mainRun args env fs0 aws net).fs args.out = some (pyReadText raw)) ∧
    (p = args.out →
      (mainRun args env fs0 aws net).fs = fs0 ∧
      ∀ q c, Event.fileWrite q c ∉ (mainRun args env fs0 aws net).events) ∧
    ((∀ c ∈ raw.data, c ≠ '\r') → pyReadText raw = raw) := by
  rw [mainRun_local args env fs0 aws net k p raw (pyReadText raw) hk hk2 hp hp2 hraw rfl]
  refine ⟨?_, ?_, fun h => pyReadText_no_cr raw h⟩
  · intro hpo
    rw [if_neg hpo, upsertStep_fs]
    simp [fsWrite]
  · intro hpo
    rw [if_pos hpo]
    refine ⟨upsertStep_fs .., ?_⟩
    intro q c hmem
    obtain ⟨rs, hrs⟩ := upsertStep_events net k args (pyReadText raw) [] fs0
    rw [hrs] at hmem
    simp at hmem

theorem c5_local_roundtrip_amended_witness :
    ("input.yaml" ≠ cArgsCrlf.out →
      (mainRun cArgsCrlf cEnv cFsCrlf none netC1).fs cArgsCrlf.out =
        some (pyReadText "a\r\nb")) ∧
    ("input.yaml" = cArgsCrlf.out →
      (mainRun cArgsCrlf cEnv cFsCrlf none netC1).fs = cFsCrlf ∧
      ∀ q c, Event.fileWrite q c ∉ (mainRun cArgsCrlf cEnv cFsCrlf none netC1).events) ∧
    ((∀ c ∈ ("a\r\nb" : String).data, c ≠ '\r') → pyReadText "a\r\nb" = "a\r\nb") :=
  c5_local_roundtrip_amended cArgsCrlf cEnv cFsCrlf none netC1 "PMAK-test"
    "input.yaml" "a\r\nb" rfl (by decide) rfl (by decide) rfl

/-- C2: if variant `kc` (1-indexed) is the first candidate body whose create
request succeeds with an extractable identifier, `create_spec` issues exactly
`kc` requests, returns that identifier, and never attempts later variants
(its request list is exactly the first `kc` variant requests); likewise for
`update_spec` with the first non-raising variant `ku`. -/
theorem c2_first_success_wins (net : Net) (apiKey ws specId name yaml : String)
    (kc ku : Nat) (x : Json)
    (hc1 : 1 ≤ kc) (hc3 : kc ≤ (payloadVariants name yaml).length)
    (hcf : ∀ i, i < kc - 1 → isErr (attemptCreate net apiKey (specsUrl ws)
      ((payloadVariants name yaml).getD i .null)) = true)
    (hcs : attemptCreate net apiKey (specsUrl ws)
      ((payloadVariants name yaml).getD (kc - 1) .null) = .ok x)
    (hu1 : 1 ≤ ku) (hu3 : ku ≤ (payloadVariants name yaml).length)
    (huf : ∀ i, i < ku - 1 → isErr (attemptUpdate net apiKey
      (POSTMAN_API_BASE ++ "/specs/" ++ specId)
      ((payloadVariants name yaml).getD i .null)) = true)
    (hus : attemptUpdate net apiKey (POSTMAN_API_BASE ++ "/specs/" ++ specId)
      ((payloadVariants name yaml).getD (ku - 1) .null) = .ok ()) :
    createSpec net apiKey ws name yaml =
      (.ok x, ((payloadVariants name yaml).take kc).map (createReq ws apiKey)) ∧
    (createSpec net apiKey ws name yaml).2.length = kc ∧
    updateSpec net apiKey specId name yaml =
      (.ok (), ((payloadVariants name yaml).take ku).map (updateReq specId apiKey)) ∧
    (updateSpec net apiKey specId name yaml).2.length = ku := by
  have e1 : createSpec net apiKey ws name yaml =
      (.ok x, ((payloadVariants name yaml).take kc).map (createReq ws apiKey)) := by
    simp only [createSpec]
    exact variantLoop_first_success _ _ _ _ _ kc hc1 hc3 hcf x hcs
  have e2 : updateSpec net apiKey specId name yaml =
      (.ok (), ((payloadVariants name yaml).take ku).map (updateReq specId apiKey)) := by
    simp only [updateSpec]
    exact variantLoop_first_success _ _ _ _ _ ku hu1 hu3 huf () hus
  refine ⟨e1, ?_, e2, ?_⟩
  · rw [e1]
    simp [List.length_take, Nat.min_eq_left hc3]
  · rw [e2]
    simp [List.length_take, Nat.min_eq_left hu3]

theorem c2_first_success_wins_witness :
    createSpec netC2 "PMAK-test" "w1" "Pay API" "openapi: 3.0.0" =
      (.ok (.str "id-b"),
        ((payloadVariants "Pay API" "openapi: 3.0.0").take 2).map (createReq "w1" "PMAK-test")) ∧
    (createSpec netC2 "PMAK-test" "w1" "Pay API" "openapi: 3.0.0").2.length = 2 ∧
    updateSpec netC2 "PMAK-test" "a" "Pay API" "openapi: 3.0.0" =
      (.ok (), ((payloadVariants "Pay API" "openapi: 3.0.0").take 2).map (updateReq "a" "PMAK-test")) ∧
    (updateSpec netC2 "PMAK-test" "a" "Pay API" "openapi: 3.0.0").2.length = 2 :=
  c2_first_success_wins netC2 "PMAK-test" "w1" "a" "Pay API" "openapi: 3.0.0" 2 2
    (.str "id-b") (by decide) (by decide)
    (fun i hi => by interval_cases i <;> rfl) rfl
    (by decide) (by decide)
    (fun i hi => by interval_cases i <;> rfl) rfl

/-- C3: when every candidate body fails, both `create_spec` and `update_spec`
issue exactly 3 requests (one per variant, in order) and raise a single
aggregate `RuntimeError` whose message references only the third (last)
underlying error. -/
theorem c3_exhaustion_aggregate_error (net : Net) (apiKey ws specId name yaml : String)
    (ec eu : PyError)
    (hcf : ∀ b ∈ payloadVariants name yaml,
      isErr (attemptCreate net apiKey (specsUrl ws) b) = true)
    (hcl : attemptCreate net apiKey (specsUrl ws)
      ((payloadVariants name yaml).getD 2 .null) = .error ec)
    (huf : ∀ b ∈ payloadVariants name yaml,
      isErr (attemptUpdate net apiKey (POSTMAN_API_BASE ++ "/specs/" ++ specId) b) = true)
    (hul : attemptUpdate net apiKey (POSTMAN_API_BASE ++ "/specs/" ++ specId)
      ((payloadVariants name yaml).getD 2 .null) = .error eu) :
    createSpec net apiKey ws name yaml =
      (.error (.runtimeError ("Failed to create spec (tried 3 payloads): " ++ pyErrStr ec)),
       (payloadVariants name yaml).map (createReq ws apiKey)) ∧
    (createSpec net apiKey ws name yaml).2.length = 3 ∧
    updateSpec net apiKey specId name yaml =
      (.error (.runtimeError ("Failed to update spec " ++ specId ++ ": " ++ pyErrStr eu)),
       (payloadVariants name yaml).map (updateReq specId apiKey)) ∧
    (updateSpec net apiKey specId name yaml).2.length = 3 := by
  simp only [payloadVariants, List.getD_cons_succ, List.getD_cons_zero] at hcl hul
  have hc := variantLoop_all_fail (attemptCreate net apiKey (specsUrl ws))
    (fun b => (⟨"POST", specsUrl ws, apiKey, some b⟩ : Request))
    (fun lastErr => .runtimeError ("Failed to create spec (tried "
      ++ toString (payloadVariants name yaml).length ++ " payloads): " ++ optErrStr lastErr))
    (payloadVariants name yaml) none hcf
  have hu := variantLoop_all_fail (attemptUpdate net apiKey (POSTMAN_API_BASE ++ "/specs/" ++ specId))
    (fun b => (⟨"PUT", POSTMAN_API_BASE ++ "/specs/" ++ specId, apiKey, some b⟩ : Request))
    (fun lastErr => .runtimeError ("Failed to update spec " ++ specId ++ ": "
      ++ optErrStr lastErr))
    (payloadVariants name yaml) none huf
  have hfoldc : (payloadVariants name yaml).foldl
      (fun _ b => some (errOf (attemptCreate net apiKey (specsUrl ws) b))) none = some ec := by
    simp only [payloadVariants, List.foldl_cons, List.foldl_nil]
    rw [hcl]
    simp [errOf]
  have hfoldu : (payloadVariants name yaml).foldl
      (fun _ b => some (errOf (attemptUpdate net apiKey
        (POSTMAN_API_BASE ++ "/specs/" ++ specId) b))) none = some eu := by
    simp only [payloadVariants, List.foldl_cons, List.foldl_nil]
    rw [hul]
    simp [errOf]
  rw [hfoldc] at hc
  rw [hfoldu] at hu
  simp only [optErrStr] at hc hu
  rw [createSpec_agg_msg] at hc
  have e1 : createSpec net apiKey ws name yaml =
      (.error (.runtimeError ("Failed to create spec (tried 3 payloads): " ++ pyErrStr ec)),
       (payloadVariants name yaml).map (createReq ws apiKey)) := by
    simp only [createSpec]
    exact hc
  have e2 : updateSpec net apiKey specId name yaml =
      (.error (.runtimeError ("Failed to update spec " ++ specId ++ ": " ++ pyErrStr eu)),
       (payloadVariants name yaml).map (updateReq specId apiKey)) := by
    simp only [updateSpec]
    exact hu
  refine ⟨e1, ?_, e2, ?_⟩
  · rw [e1]
    simp [payloadVariants]
  · rw [e2]
    simp [payloadVariants]

theorem c3_exhaustion_aggregate_error_witness :
    createSpec netFail "PMAK-test" "w1" "N" "Y" =
      (.error (.runtimeError ("Failed to create spec (tried 3 payloads): "
        ++ pyErrStr (.runtimeError
          "HTTP 404 calling https://api.getpostman.com/specs?workspaceId=w1: nope"))),
       (payloadVariants "N" "Y").map (createReq "w1" "PMAK-test")) ∧
    (createSpec netFail "PMAK-test" "w1" "N" "Y").2.length = 3 ∧
    updateSpec netFail "PMAK-test" "a" "N" "Y" =
      (.error (.runtimeError ("Failed to update spec a: "
        ++ pyErrStr (.runtimeError
          "HTTP 404 calling https://api.getpostman.com/specs/a: nope"))),
       (payloadVariants "N" "Y").map (updateReq "a" "PMAK-test")) ∧
    (updateSpec netFail "PMAK-test" "a" "N" "Y").2.length = 3 :=
  c3_exhaustion_aggregate_error netFail "PMAK-test" "w1" "a" "N" "Y"
    (.runtimeError "HTTP 404 calling https://api.getpostman.com/specs?workspaceId=w1: nope")
    (.runtimeError "HTTP 404 calling https://api.getpostman.com/specs/a: nope")
    (by decide) rfl (by decide) rfl

/-- C4 counterexample: the claim says a timeout is surfaced distinctly and
never treated as a failure that licenses trying the next variant.  On the
code, a timeout on variant A's request is caught by the loop's broad
`except Exception` like any confirmed failure: variant B is still attempted
(two requests issued) and its result is returned as the overall success. -/
theorem c4_timeout_licenses_next_variant :
    netC4 (createReq "w1" "PMAK-test" (firstVariant "Pay API" "openapi: 3.0.0")) =
      .netError "timed out" ∧
    createSpec netC4 "PMAK-test" "w1" "Pay API" "openapi: 3.0.0" =
      (.ok (.str "id-b"),
       [createReq "w1" "PMAK-test" ((payloadVariants "Pay API" "openapi: 3.0.0").getD 0 .null),
        createReq "w1" "PMAK-test" ((payloadVariants "Pay API" "openapi: 3.0.0").getD 1 .null)]) ∧
    (createSpec netC4 "PMAK-test" "w1" "Pay API" "openapi: 3.0.0").2.length = 2 :=
  ⟨rfl, rfl, rfl⟩

/-- C4 (amended): in the variant-negotiation loop, variant `i+1` is attempted
exactly when every earlier attempt raised — a failure response, an
unparseable result, or a network error including a timeout — and never after
a success.  A timeout is caught like any other exception and licenses trying
the next variant; it is not surfaced distinctly. -/
theorem c4_variant_progression_amended (net : Net) (apiKey ws name yaml : String)
    (i : Nat) (hi : i + 1 < (payloadVariants name yaml).length) :
    ((i + 2 ≤ (createSpec net apiKey ws name yaml).2.length) ↔
      ∀ j, j ≤ i → isErr (attemptCreate net apiKey (specsUrl ws)
        ((payloadVariants name yaml).getD j .null)) = true) ∧
    (∀ x, attemptCreate net apiKey (specsUrl ws)
        ((payloadVariants name yaml).getD i .null) = .ok x →
      (createSpec net apiKey ws name yaml).2.length ≤ i + 1) := by
  have hlen : (createSpec net apiKey ws name yaml).2.length =
      attemptsUsed (attemptCreate net apiKey (specsUrl ws)) (payloadVariants name yaml) := by
    simp only [createSpec]
    exact variantLoop_length ..
  constructor
  · rw [hlen]
    exact attemptsUsed_ge_iff _ _ i hi
  · intro x hx
    rw [hlen]
    exact attemptsUsed_le_of_ok _ _ i x (by omega) hx

theorem c4_variant_progression_amended_witness :
    ((0 + 2 ≤ (createSpec netC4 "PMAK-test" "w1" "Pay API" "openapi: 3.0.0").2.length) ↔
      ∀ j, j ≤ 0 → isErr (attemptCreate netC4 "PMAK-test" (specsUrl "w1")
        ((payloadVariants "Pay API" "openapi: 3.0.0").getD j .null)) = true) ∧
    (∀ x, attemptCreate netC4 "PMAK-test" (specsUrl "w1")
        ((payloadVariants "Pay API" "openapi: 3.0.0").getD 0 .null) = .ok x →
      (createSpec netC4 "PMAK-test" "w1" "Pay API" "openapi: 3.0.0").2.length ≤ 0 + 1) :=
  c4_variant_progression_amended netC4 "PMAK-test" "w1" "Pay API" "openapi: 3.0.0" 0
    (by decide)

/-- C9: identifier extraction succeeds exactly for the two known envelopes —
an id nested under a `spec` dict, or a top-level string `id`.  When neither
shape matches, `_extract_spec_id` raises a `RuntimeError`, which the
executor catches like any variant failure: given a first-variant response
matching no envelope, the loop proceeds to the next variant (at least two
requests are issued) instead of crashing the run. -/
theorem c9_extract_envelopes (resp : Json) (net : Net) (apiKey ws name yaml : String)
    (hnet : net (createReq ws apiKey (firstVariant name yaml)) = .ok resp) :
    ((∃ v, extractSpecId resp = .ok v) ↔
      (hasNestedId resp = true ∨ hasTopId resp = true)) ∧
    (hasNestedId resp = false → hasTopId resp = false →
      extractSpecId resp =
        .error (.runtimeError ("Unexpected spec response: " ++ pyStr resp)) ∧
      2 ≤ (createSpec net apiKey ws name yaml).2.length) := by
  constructor
  · unfold extractSpecId hasNestedId
    rcases h : dictGet resp "spec" with _ | v
    · simpa using extractTopLevelId_ok_iff resp
    · cases v with
      | obj fields =>
        dsimp only
        rcases hid : lookupFirst fields "id" with _ | w
        · simpa [hid] using extractTopLevelId_ok_iff resp
        · simp [hid]
      | null => simpa using extractTopLevelId_ok_iff resp
      | bool b => simpa using extractTopLevelId_ok_iff resp
      | num n => simpa using extractTopLevelId_ok_iff resp
      | str s => simpa using extractTopLevelId_ok_iff resp
      | arr es => simpa using extractTopLevelId_ok_iff resp
  · intro hn ht
    have hx := extract_error_of_no_envelope resp hn ht
    refine ⟨hx, ?_⟩
    have hnet2 : net ⟨"POST", specsUrl ws, apiKey,
        some ((payloadVariants name yaml).getD 0 .null)⟩ = .ok resp := by
      simpa [createReq, firstVariant] using hnet
    have hfail : isErr (attemptCreate net apiKey (specsUrl ws)
        ((payloadVariants name yaml).getD 0 .null)) = true := by
      simp only [attemptCreate, http_json]
      rw [hnet2]
      simp [hx, isErr]
    have hlen : (createSpec net apiKey ws name yaml).2.length =
        attemptsUsed (attemptCreate net apiKey (specsUrl ws)) (payloadVariants name yaml) := by
      simp only [createSpec]
      exact variantLoop_length ..
    rw [hlen]
    have h2 := (attemptsUsed_ge_iff (attemptCreate net apiKey (specsUrl ws))
        (payloadVariants name yaml) 0 (by simp [payloadVariants])).mpr
      (fun j hj => by
        have hj0 : j = 0 := Nat.le_zero.mp hj
        subst hj0
        exact hfail)
    simpa using h2

theorem c9_extract_envelopes_witness :
    ((∃ v, extractSpecId (.obj [("foo", .null)]) = .ok v) ↔
      (hasNestedId (.obj [("foo", .null)]) = true ∨
        hasTopId (.obj [("foo", .null)]) = true)) ∧
    (hasNestedId (.obj [("foo", .null)]) = false →
      hasTopId (.obj [("foo", .null)]) = false →
      extractSpecId (.obj [("foo", .null)]) =
        .error (.runtimeError ("Unexpected spec response: "
          ++ pyStr (.obj [("foo", .null)]))) ∧
      2 ≤ (createSpec netC9 "PMAK-test" "w1" "Pay API" "openapi: 3.0.0").2.length) :=
  c9_extract_envelopes (.obj [("foo", .null)]) netC9 "PMAK-test" "w1"
    "Pay API" "openapi: 3.0.0" rfl

/-- C10: when the listing call succeeds but the response object has no
`specs` key, `list_specs` yields the empty list (`resp.get("specs", [])`),
so the orchestrator takes the create path — right after the GET it issues
the first create POST — instead of failing on the malformed list response. -/
theorem c10_missing_specs_key_creates (args : Args) (env : String → Option String)
    (fs0 : Fs) (aws : Option String) (net : Net) (k p raw doc : String) (resp : Json)
    (hk : env "POSTMAN_API_KEY" = some k) (hk2 : k ≠ "")
    (hp : args.localSpec = some p) (hp2 : p ≠ "")
    (hraw : fs0 p = some raw) (hdoc : pyReadText raw = doc)
    (hl : net (listReq args.workspaceId k) = .ok resp)
    (hns : dictGet resp "specs" = none) :
    listSpecsVal resp = .arr [] ∧
    ∃ t, httpTrace (mainRun args env fs0 aws net).events =
      listReq args.workspaceId k
        :: createReq args.workspaceId k (firstVariant args.specName doc) :: t := by
  have hs : listSpecsVal resp = .arr [] := by simp [listSpecsVal, hns]
  refine ⟨hs, ?_⟩
  have hm : firstMatchId ([] : List Json) args.specName = none := rfl
  rw [mainRun_local args env fs0 aws net k p raw doc hk hk2 hp hp2 hraw hdoc]
  by_cases hpo : p = args.out
  · rw [if_pos hpo]
    simpa using upsertStep_create_trace net k args doc [] fs0 resp [] hl hs hm
  · rw [if_neg hpo]
    simpa using upsertStep_create_trace net k args doc
      [.fileWrite args.out doc] (fsWrite fs0 args.out doc) resp [] hl hs hm

theorem c10_missing_specs_key_creates_witness :
    listSpecsVal (.obj [("message", .str "hi")]) = .arr [] ∧
    ∃ t, httpTrace (mainRun cArgs cEnv cFs none netC10).events =
      listReq cArgs.workspaceId "PMAK-test"
        :: createReq cArgs.workspaceId "PMAK-test"
          (firstVariant cArgs.specName "openapi: 3.0.0") :: t :=
  c10_missing_specs_key_creates cArgs cEnv cFs none netC10 "PMAK-test"
    "openapi.yaml" "openapi: 3.0.0" "openapi: 3.0.0" (.obj [("message", .str "hi")])
    rfl (by decide) rfl (by decide) rfl rfl rfl rfl

/-- C1 counterexample: the claim says one or more name matches always take
the update path.  On the code, when the listing returns exactly one ref
whose name matches but which carries no `id` field, the guard
`existing and existing[0].get("id")` fails and the run takes the create
path: the trace is GET, create POST, generation POST — no PUT is ever
issued. -/
theorem c1_matching_ref_without_id_takes_create_path :
    ([Json.obj [("name", .str "Pay API")]].filter
        (fun s => nameMatches s cArgs.specName)).length = 1 ∧
    netC1 (listReq "w1" "PMAK-test") =
      .ok (.obj [("specs", .arr [.obj [("name", .str "Pay API")]])]) ∧
    (httpTrace (mainRun cArgs cEnv cFs none netC1).events).map
        (fun q => (q.method, q.url)) =
      [("GET", specsUrl "w1"), ("POST", specsUrl "w1"),
       ("POST", POSTMAN_API_BASE ++ "/specs/cid/generations/collection")] ∧
    (httpTrace (mainRun cArgs cEnv cFs none netC1).events).filter
        (fun q => q.method == "PUT") = [] :=
  ⟨rfl, rfl, rfl, rfl⟩

/-- C1 (amended): after a successful listing, if no returned ref's name
equals the target name, or the first name match (in list order) has a
missing or falsy `id`, the orchestrator takes the create path; if the first
name match carries a truthy `id`, it takes the update path targeting exactly
that id — the first match in list order, never a later one. -/
theorem c1_upsert_decision_amended (args : Args) (env : String → Option String)
    (fs0 : Fs) (aws : Option String) (net : Net) (k p raw doc : String)
    (resp : Json) (specs : List Json)
    (hk : env "POSTMAN_API_KEY" = some k) (hk2 : k ≠ "")
    (hp : args.localSpec = some p) (hp2 : p ≠ "")
    (hraw : fs0 p = some raw) (hdoc : pyReadText raw = doc)
    (hl : net (listReq args.workspaceId k) = .ok resp)
    (hs : listSpecsVal resp = .arr specs)
    (hobj : ∀ s ∈ specs, ∃ fields, s = .obj fields) :
    (specs.filter (fun s => nameMatches s args.specName) = [] →
      ∃ t, httpTrace (mainRun args env fs0 aws net).events =
        listReq args.workspaceId k
          :: createReq args.workspaceId k (firstVariant args.specName doc) :: t) ∧
    (∀ s rest, specs.filter (fun s => nameMatches s args.specName) = s :: rest →
      ((dictGet s "id" = none ∨
          (∃ idv, dictGet s "id" = some idv ∧ idv.pyTruthy = false)) →
        ∃ t, httpTrace (mainRun args env fs0 aws net).events =
          listReq args.workspaceId k
            :: createReq args.workspaceId k (firstVariant args.specName doc) :: t) ∧
      (∀ idv, dictGet s "id" = some idv → idv.pyTruthy = true →
        ∃ t, httpTrace (mainRun args env fs0 aws net).events =
          listReq args.workspaceId k
            :: updateReq (pyStr idv) k (firstVariant args.specName doc) :: t)) := by
  have hcreate : firstMatchId specs args.specName = none →
      ∃ t, httpTrace (mainRun args env fs0 aws net).events =
        listReq args.workspaceId k
          :: createReq args.workspaceId k (firstVariant args.specName doc) :: t := by
    intro hm
    rw [mainRun_local args env fs0 aws net k p raw doc hk hk2 hp hp2 hraw hdoc]
    by_cases hpo : p = args.out
    · rw [if_pos hpo]
      simpa using upsertStep_create_trace net k args doc [] fs0 resp specs hl hs hm
    · rw [if_neg hpo]
      simpa using upsertStep_create_trace net k args doc
        [.fileWrite args.out doc] (fsWrite fs0 args.out doc) resp specs hl hs hm
  have hupdate : ∀ idv, firstMatchId specs args.specName = some idv →
      ∃ t, httpTrace (mainRun args env fs0 aws net).events =
        listReq args.workspaceId k
          :: updateReq (pyStr idv) k (firstVariant args.specName doc) :: t := by
    intro idv hm
    rw [mainRun_local args env fs0 aws net k p raw doc hk hk2 hp hp2 hraw hdoc]
    by_cases hpo : p = args.out
    · rw [if_pos hpo]
      simpa using upsertStep_update_trace net k args doc [] fs0 resp specs idv hl hs hm
    · rw [if_neg hpo]
      simpa using upsertStep_update_trace net k args doc
        [.fileWrite args.out doc] (fsWrite fs0 args.out doc) resp specs idv hl hs hm
  refine ⟨fun hfil => hcreate (by simp [firstMatchId, hfil]), ?_⟩
  intro s rest hfil
  constructor
  · rintro (hid | ⟨idv, hid, hfalse⟩)
    · exact hcreate (by simp [firstMatchId, hfil, hid])
    · exact hcreate (by simp [firstMatchId, hfil, hid, hfalse])
  · intro idv hid htrue
    exact hupdate idv (by simp [firstMatchId, hfil, hid, htrue])

theorem c1_upsert_decision_amended_witness :
    (([ Json.obj [("name", .str "Pay API"), ("id", .str "a")],
        Json.obj [("name", .str "Pay API"), ("id", .str "b")] ] :
          List Json).filter (fun s => nameMatches s cArgs.specName) = [] →
      ∃ t, httpTrace (mainRun cArgs cEnv cFs none netC1u).events =
        listReq cArgs.workspaceId "PMAK-test"
          :: createReq cArgs.workspaceId "PMAK-test"
            (firstVariant cArgs.specName "openapi: 3.0.0") :: t) ∧
    (∀ s rest, ([ Json.obj [("name", .str "Pay API"), ("id", .str "a")],
        Json.obj [("name", .str "Pay API"), ("id", .str "b")] ] :
          List Json).filter (fun s => nameMatches s cArgs.specName) = s :: rest →
      ((dictGet s "id" = none ∨
          (∃ idv, dictGet s "id" = some idv ∧ idv.pyTruthy = false)) →
        ∃ t, httpTrace (mainRun cArgs cEnv cFs none netC1u).events =
          listReq cArgs.workspaceId "PMAK-test"
            :: createReq cArgs.workspaceId "PMAK-test"
              (firstVariant cArgs.specName "openapi: 3.0.0") :: t) ∧
      (∀ idv, dictGet s "id" = some idv → idv.pyTruthy = true →
        ∃ t, httpTrace (mainRun cArgs cEnv cFs none netC1u).events =
          listReq cArgs.workspaceId "PMAK-test"
            :: updateReq (pyStr idv) "PMAK-test"
              (firstVariant cArgs.specName "openapi: 3.0.0") :: t)) :=
  c1_upsert_decision_amended cArgs cEnv cFs none netC1u "PMAK-test"
    "openapi.yaml" "openapi: 3.0.0" "openapi: 3.0.0"
    (.obj [("specs", .arr
      [ .obj [("name", .str "Pay API"), ("id", .str "a")],
        .obj [("name", .str "Pay API"), ("id", .str "b")] ])])
    [ .obj [("name", .str "Pay API"), ("id", .str "a")],
      .obj [("name", .str "Pay API"), ("id", .str "b")] ]
    rfl (by decide) rfl (by decide) rfl rfl rfl rfl
    (by intro s hs
        simp only [List.mem_cons, List.not_mem_nil, or_false] at hs
        rcases hs with h | h <;> exact ⟨_, h⟩)

/-- C6 counterexample: the claim says a generation-trigger failure is
reported as a partial success, with exit code 0 not gated by it.  On the
code, after a successful create the failing generation call raises an
uncaught `RuntimeError`, so the process exits with status 1 — the same
total-failure signal as any other fatal error — even though the create
request had already succeeded. -/
theorem c6_generation_failure_is_fatal :
    (httpTrace (mainRun cArgs cEnv cFs none netC6).events).map
        (fun q => (q.method, q.url)) =
      [("GET", specsUrl "w1"), ("POST", specsUrl "w1"),
       ("POST", POSTMAN_API_BASE ++ "/specs/cid/generations/collection")] ∧
    (mainRun cArgs cEnv cFs none netC6).outcome =
      .raised (.runtimeError ("HTTP 500 calling "
        ++ POSTMAN_API_BASE ++ "/specs/cid/generations/collection: boom")) ∧
    (mainRun cArgs cEnv cFs none netC6).outcome.exitCode = 1 :=
  ⟨rfl, rfl, rfl⟩

/-- C6 (amended): generation is always attempted after a successful create
or a successful update, and its failure does not retract the upsert — the
create/update requests stay in the trace and nothing is rolled back — but
the failure propagates as an uncaught exception: the process exits with
status 1, so a successful generation trigger is required for exit code 0. -/
theorem c6_generation_amended (args : Args) (env : String → Option String)
    (fs0 : Fs) (aws : Option String) (net : Net) (k p raw doc : String)
    (resp : Json) (specs : List Json)
    (hk : env "POSTMAN_API_KEY" = some k) (hk2 : k ≠ "")
    (hp : args.localSpec = some p) (hp2 : p ≠ "")
    (hraw : fs0 p = some raw) (hdoc : pyReadText raw = doc)
    (hl : net (listReq args.workspaceId k) = .ok resp)
    (hs : listSpecsVal resp = .arr specs) :
    (∀ idj, firstMatchId specs args.specName = none →
      (createSpec net k args.workspaceId args.specName doc).1 = .ok idj →
      (Event.httpRequest (genReq idj k) ∈ (mainRun args env fs0 aws net).events) ∧
      (∀ q ∈ (createSpec net k args.workspaceId args.specName doc).2,
        Event.httpRequest q ∈ (mainRun args env fs0 aws net).events) ∧
      (∀ c raw2, net (genReq idj k) = .httpError c raw2 →
        (mainRun args env fs0 aws net).outcome =
          .raised (.runtimeError ("HTTP " ++ toString c ++ " calling "
            ++ (POSTMAN_API_BASE ++ "/specs/" ++ pyStr idj ++ "/generations/collection")
            ++ ": " ++ raw2)) ∧
        (mainRun args env fs0 aws net).outcome.exitCode = 1) ∧
      (∀ m, net (genReq idj k) = .netError m →
        (mainRun args env fs0 aws net).outcome = .raised (.netError m) ∧
        (mainRun args env fs0 aws net).outcome.exitCode = 1) ∧
      (∀ r2, net (genReq idj k) = .ok r2 →
        (mainRun args env fs0 aws net).outcome = .exit 0)) ∧
    (∀ idv, firstMatchId specs args.specName = some idv →
      (updateSpec net k (pyStr idv) args.specName doc).1 = .ok () →
      (Event.httpRequest (genReq idv k) ∈ (mainRun args env fs0 aws net).events) ∧
      (∀ q ∈ (updateSpec net k (pyStr idv) args.specName doc).2,
        Event.httpRequest q ∈ (mainRun args env fs0 aws net).events) ∧
      (∀ c raw2, net (genReq idv k) = .httpError c raw2 →
        (mainRun args env fs0 aws net).outcome =
          .raised (.runtimeError ("HTTP " ++ toString c ++ " calling "
            ++ (POSTMAN_API_BASE ++ "/specs/" ++ pyStr idv ++ "/generations/collection")
            ++ ": " ++ raw2)) ∧
        (mainRun args env fs0 aws net).outcome.exitCode = 1) ∧
      (∀ m, net (genReq idv k) = .netError m →
        (mainRun args env fs0 aws net).outcome = .raised (.netError m) ∧
        (mainRun args env fs0 aws net).outcome.exitCode = 1) ∧
      (∀ r2, net (genReq idv k) = .ok r2 →
        (mainRun args env fs0 aws net).outcome = .exit 0)) := by
  constructor
  · intro idj hm hc
    obtain ⟨evs2, fsx, hmain, hsub⟩ : ∃ evs2 fsx,
        mainRun args env fs0 aws net = genStep net k idj evs2 fsx ∧
        ∀ q ∈ (createSpec net k args.workspaceId args.specName doc).2,
          Event.httpRequest q ∈ evs2 := by
      rw [mainRun_local args env fs0 aws net k p raw doc hk hk2 hp hp2 hraw hdoc]
      by_cases hpo : p = args.out
      · rw [if_pos hpo, upsertStep_create_eq net k args doc [] fs0 resp specs hl hs hm,
          hc]
        exact ⟨_, _, rfl, fun q hq => by simp [hq]⟩
      · rw [if_neg hpo, upsertStep_create_eq net k args doc
          [.fileWrite args.out doc] (fsWrite fs0 args.out doc) resp specs hl hs hm, hc]
        exact ⟨_, _, rfl, fun q hq => by simp [hq]⟩
    obtain ⟨g1, g2, g3, g4, g5⟩ := genStep_run_report net k idj evs2 fsx
    rw [hmain]
    exact ⟨g1, fun q hq => g2 _ (hsub q hq), g3, g4, g5⟩
  · intro idv hm hu
    obtain ⟨evs2, fsx, hmain, hsub⟩ : ∃ evs2 fsx,
        mainRun args env fs0 aws net = genStep net k idv evs2 fsx ∧
        ∀ q ∈ (updateSpec net k (pyStr idv) args.specName doc).2,
          Event.httpRequest q ∈ evs2 := by
      rw [mainRun_local args env fs0 aws net k p raw doc hk hk2 hp hp2 hraw hdoc]
      by_cases hpo : p = args.out
      · rw [if_pos hpo,
          upsertStep_update_eq net k args doc [] fs0 resp specs idv hl hs hm, hu]
        exact ⟨_, _, rfl, fun q hq => by simp [hq]⟩
      · rw [if_neg hpo, upsertStep_update_eq net k args doc
          [.fileWrite args.out doc] (fsWrite fs0 args.out doc) resp specs idv hl hs hm,
          hu]
        exact ⟨_, _, rfl, fun q hq => by simp [hq]⟩
    obtain ⟨g1, g2, g3, g4, g5⟩ := genStep_run_report net k idv evs2 fsx
    rw [hmain]
    exact ⟨g1, fun q hq => g2 _ (hsub q hq), g3, g4, g5⟩

theorem c6_generation_amended_witness :
    (∀ idj, firstMatchId [Json.obj [("name", .str "Pay API"), ("id", .str "a")]]
        cArgs.specName = none →
      (createSpec netC6u "PMAK-test" "w1" cArgs.specName "openapi: 3.0.0").1 = .ok idj →
      (Event.httpRequest (genReq idj "PMAK-test") ∈
        (mainRun cArgs cEnv cFs none netC6u).events) ∧
      (∀ q ∈ (createSpec netC6u "PMAK-test" "w1" cArgs.specName "openapi: 3.0.0").2,
        Event.httpRequest q ∈ (mainRun cArgs cEnv cFs none netC6u).events) ∧
      (∀ c raw2, netC6u (genReq idj "PMAK-test") = .httpError c raw2 →
        (mainRun cArgs cEnv cFs none netC6u).outcome =
          .raised (.runtimeError ("HTTP " ++ toString c ++ " calling "
            ++ (POSTMAN_API_BASE ++ "/specs/" ++ pyStr idj ++ "/generations/collection")
            ++ ": " ++ raw2)) ∧
        (mainRun cArgs cEnv cFs none netC6u).outcome.exitCode = 1) ∧
      (∀ m, netC6u (genReq idj "PMAK-test") = .netError m →
        (mainRun cArgs cEnv cFs none netC6u).outcome = .raised (.netError m) ∧
        (mainRun cArgs cEnv cFs none netC6u).outcome.exitCode = 1) ∧
      (∀ r2, netC6u (genReq idj "PMAK-test") = .ok r2 →
        (mainRun cArgs cEnv cFs none netC6u).outcome = .exit 0)) ∧
    (∀ idv, firstMatchId [Json.obj [("name", .str "Pay API"), ("id", .str "a")]]
        cArgs.specName = some idv →
      (updateSpec netC6u "PMAK-test" (pyStr idv) cArgs.specName "openapi: 3.0.0").1 = .ok () →
      (Event.httpRequest (genReq idv "PMAK-test") ∈
        (mainRun cArgs cEnv cFs none netC6u).events) ∧
      (∀ q ∈ (updateSpec netC6u "PMAK-test" (pyStr idv) cArgs.specName "openapi: 3.0.0").2,
        Event.httpRequest q ∈ (mainRun cArgs cEnv cFs none netC6u).events) ∧
      (∀ c raw2, netC6u (genReq idv "PMAK-test") = .httpError c raw2 →
        (mainRun cArgs cEnv cFs none netC6u).outcome =
          .raised (.runtimeError ("HTTP " ++ toString c ++ " calling "
            ++ (POSTMAN_API_BASE ++ "/specs/" ++ pyStr idv ++ "/generations/collection")
            ++ ": " ++ raw2)) ∧
        (mainRun cArgs cEnv cFs none netC6u).outcome.exitCode = 1) ∧
      (∀ m, netC6u (genReq idv "PMAK-test") = .netError m →
        (mainRun cArgs cEnv cFs none netC6u).outcome = .raised (.netError m) ∧
        (mainRun cArgs cEnv cFs none netC6u).outcome.exitCode = 1) ∧
      (∀ r2, netC6u (genReq idv "PMAK-test") = .ok r2 →
        (mainRun cArgs cEnv cFs none netC6u).outcome = .exit 0)) :=
  c6_generation_amended cArgs cEnv cFs none netC6u "PMAK-test" "openapi.yaml"
    "openapi: 3.0.0" "openapi: 3.0.0"
    (.obj [("specs", .arr [.obj [("name", .str "Pay API"), ("id", .str "a")]])])
    [Json.obj [("name", .str "Pay API"), ("id", .str "a")]]
    rfl (by decide) rfl (by decide) rfl rfl rfl rfl

end ApigwIngest
